import Mathlib

/-!
Shallow embedding of the query-correlation-and-ledger core of the OSINT
tracker backend, together with theorems settling the specification claims.

The embedded source files are:
* `backend/modules/tracker_service.py` — credit ledger (`deduct_credits`,
  `add_credits`), search orchestration (`execute_search`) and the
  cross-module summary (`_generate_summary`);
* `backend/modules/telegram_bot_service.py` — bot directory
  (`BOT_CONFIGS`, `_get_bot_for_module`), query formatting
  (`_format_bot_query`), the pending-query correlator (`query_bot`) and
  the confidence scorer (`_calculate_confidence`);
* `backend/schemas/tracker.py` — `TrackerModule` and `MODULE_CREDITS`;
* `backend/routers/tracker.py` — the `/modules` catalog endpoint.

Database rows become Lean structures, the SQLAlchemy session becomes an
explicit state value threaded through the operations, and Python numbers
become `Int`/`Nat` (Python integers are unbounded, so no wrap-around is
modelled).  Python float literals `0.7`, `0.4`, `0.6`, `0.3` used in the
two threshold comparisons are modelled as the exact rationals they denote
in the source text; for the integer-count-over-integer-count fractions
compared there, rational and IEEE-double comparison agree at every input
whose denominator is far below `2^50`, which covers every realistic field
or module count.
-/

namespace Osint

/-! ## Data model: `backend/database/models.py` (the fields the core uses) -/

/-- One row of the `credit_transactions` table (`CreditTransaction` in
`backend/database/models.py`).  The autoincrement id and the timestamp
column are supplied by the database and play no role in any claim, so the
row is identified by position in the append-only list instead. -/
structure CreditTransaction where
  user_id : Nat
  transaction_type : String
  amount : Int
  balance_before : Int
  balance_after : Int
  module : String
  reference_id : Option Nat
  description : String
  created_by : Option Nat
deriving Repr, DecidableEq

/-- The slice of database state the ledger operations touch: the
`credits` column of the `users` table (an association list keyed by user
id; lookup and update both act on the first matching entry, as a keyed
table does) and the append-only `credit_transactions` table in insertion
order. -/
structure LedgerState where
  users : List (Nat × Int)
  transactions : List CreditTransaction
deriving Repr, DecidableEq

/-- `db.query(User).filter(User.id == user_id).first()`, restricted to the
`credits` column. -/
def findUser : List (Nat × Int) → Nat → Option Int
  | [], _ => none
  | (u, c) :: rest, uid => if u = uid then some c else findUser rest uid

/-- Writing back `user.credits` for the row `findUser` found. -/
def setUser : List (Nat × Int) → Nat → Int → List (Nat × Int)
  | [], _, _ => []
  | (u, c0) :: rest, uid, c =>
      if u = uid then (u, c) :: rest else (u, c0) :: setUser rest uid c

/-! ## Credit ledger: `TrackerService.deduct_credits` / `add_credits`
(`backend/modules/tracker_service.py`).

Each operation returns the Python `bool` result together with the
database state after the call.  The `try`/`except` wrapper in the source
catches storage exceptions, rolls the session back and returns `False`
with the state unchanged; storage failure is outside the shallow
embedding (no claim concerns it), so only the explicit control flow is
modelled. -/

/-- The `CreditTransaction(...)` record built inside `deduct_credits`. -/
def mkDebitTransaction (user_id : Nat) (amount balance_before balance_after : Int)
    (search_id : Nat) (description : String) : CreditTransaction :=
  { user_id := user_id
    transaction_type := "debit"
    amount := amount
    balance_before := balance_before
    balance_after := balance_after
    module := "tracker"
    reference_id := some search_id
    description := description
    created_by := none }

/-- `TrackerService.deduct_credits(user_id, amount, search_id, description)`. -/
def deduct_credits (st : LedgerState) (user_id : Nat) (amount : Int)
    (search_id : Nat) (description : String) : Bool × LedgerState :=
  match findUser st.users user_id with
  | none => (false, st)
  | some credits =>
      if credits < amount then (false, st)
      else
        let balance_before := credits
        let balance_after := credits - amount
        (true,
          { users := setUser st.users user_id balance_after
            transactions := st.transactions ++
              [mkDebitTransaction user_id amount balance_before balance_after
                search_id description] })

/-- The `CreditTransaction(...)` record built inside `add_credits`;
`description or f"Credit top-up by admin"` becomes `Option.getD`. -/
def mkCreditTransaction (user_id : Nat) (amount balance_before balance_after : Int)
    (admin_id : Nat) (description : Option String) : CreditTransaction :=
  { user_id := user_id
    transaction_type := "credit"
    amount := amount
    balance_before := balance_before
    balance_after := balance_after
    module := "tracker"
    reference_id := none
    description := description.getD "Credit top-up by admin"
    created_by := some admin_id }

/-- `TrackerService.add_credits(user_id, amount, admin_id, description)`. -/
def add_credits (st : LedgerState) (user_id : Nat) (amount : Int)
    (admin_id : Nat) (description : Option String) : Bool × LedgerState :=
  match findUser st.users user_id with
  | none => (false, st)
  | some credits =>
      let balance_before := credits
      let balance_after := credits + amount
      (true,
        { users := setUser st.users user_id balance_after
          transactions := st.transactions ++
            [mkCreditTransaction user_id amount balance_before balance_after
              admin_id description] })

/-! ### Ledger well-formedness (the invariant of claim C3) -/

/-- A single ledger row satisfies `balance_after = balance_before ± amount`
according to its type. -/
def entryOk (t : CreditTransaction) : Bool :=
  (t.transaction_type == "debit" && t.balance_after == t.balance_before - t.amount) ||
  (t.transaction_type == "credit" && t.balance_after == t.balance_before + t.amount)

/-- Consecutive rows chain: each entry's balance-before equals the previous
entry's balance-after. -/
def chained : List CreditTransaction → Bool
  | [] => true
  | [_] => true
  | t1 :: t2 :: rest => t1.balance_after == t2.balance_before && chained (t2 :: rest)

/-- The transaction rows of one user, in insertion order. -/
def userTransactions (st : LedgerState) (uid : Nat) : List CreditTransaction :=
  st.transactions.filter (fun t => t.user_id == uid)

/-- The denormalized balance equals the balance-after of the most recent
transaction (vacuous for a user with no transactions yet). -/
def balanceMatches (bal : Int) (ts : List CreditTransaction) : Bool :=
  match ts.getLast? with
  | none => true
  | some t => t.balance_after == bal

/-- Ledger invariant for one user: non-negative current balance, every row
internally consistent, rows chained, and the stored balance equal to the
last row's balance-after. -/
def ledgerWf (st : LedgerState) (uid : Nat) : Bool :=
  match findUser st.users uid with
  | none => true
  | some bal =>
      decide (0 ≤ bal) &&
      (userTransactions st uid).all entryOk &&
      chained (userTransactions st uid) &&
      balanceMatches bal (userTransactions st uid)

/-! ## `backend/schemas/tracker.py`: module enum and cost table -/

/-- The `TrackerModule` enum. -/
inductive TrackerModule where
  | TRUE_NAME
  | SOCIAL_MEDIA
  | UPI_ID
  | VEHICLE
  | AADHAAR
  | DEEP_SEARCH
  | LINKED_EMAILS
  | ALTERNATE_NUMBERS
  | BANK_DETAILS
deriving Repr, DecidableEq

/-- The string value of each `TrackerModule` member. -/
def TrackerModule.value : TrackerModule → String
  | .TRUE_NAME => "truename"
  | .SOCIAL_MEDIA => "social_media"
  | .UPI_ID => "upi"
  | .VEHICLE => "vehicle"
  | .AADHAAR => "aadhaar"
  | .DEEP_SEARCH => "deep_search"
  | .LINKED_EMAILS => "linked_emails"
  | .ALTERNATE_NUMBERS => "alternate_numbers"
  | .BANK_DETAILS => "bank_details"

/-- The `MODULE_CREDITS` dict.  Every enum member is a key, so the
`MODULE_CREDITS.get(module, 0)` accesses in `tracker_service.py` never
take the default and the dict is a total function. -/
def MODULE_CREDITS : TrackerModule → Int
  | .TRUE_NAME => 5
  | .SOCIAL_MEDIA => 3
  | .UPI_ID => 10
  | .VEHICLE => 15
  | .AADHAAR => 20
  | .DEEP_SEARCH => 25
  | .LINKED_EMAILS => 8
  | .ALTERNATE_NUMBERS => 10
  | .BANK_DETAILS => 30

/-- All nine enum members, in declaration order. -/
def allTrackerModules : List TrackerModule :=
  [.TRUE_NAME, .SOCIAL_MEDIA, .UPI_ID, .VEHICLE, .AADHAAR,
   .DEEP_SEARCH, .LINKED_EMAILS, .ALTERNATE_NUMBERS, .BANK_DETAILS]

/-! ## `backend/routers/tracker.py`: the `/modules` catalog endpoint -/

/-- One entry of the list returned by `get_available_modules`.  Entries
that lack the optional `disclaimer_required` key carry `none`. -/
structure ModuleInfo where
  name : String
  display_name : String
  description : String
  credits : Int
  sensitive : Bool
  disclaimer_required : Option Bool
deriving Repr, DecidableEq

/-- The `modules` list built inside `get_available_modules`
(`@router.get("/modules")` in `backend/routers/tracker.py`). -/
def available_modules : List ModuleInfo :=
  [ { name := TrackerModule.TRUE_NAME.value
      display_name := "True Name & Address"
      description := "Get registered name and address for phone number"
      credits := MODULE_CREDITS .TRUE_NAME
      sensitive := false
      disclaimer_required := none },
    { name := TrackerModule.SOCIAL_MEDIA.value
      display_name := "Social Media Presence"
      description := "Find social media profiles linked to phone/email"
      credits := MODULE_CREDITS .SOCIAL_MEDIA
      sensitive := false
      disclaimer_required := none },
    { name := TrackerModule.UPI_ID.value
      display_name := "UPI ID Lookup"
      description := "Get UPI IDs associated with phone number"
      credits := MODULE_CREDITS .UPI_ID
      sensitive := true
      disclaimer_required := none },
    { name := TrackerModule.VEHICLE.value
      display_name := "Vehicle Details"
      description := "Find registered vehicles linked to phone number"
      credits := MODULE_CREDITS .VEHICLE
      sensitive := true
      disclaimer_required := none },
    { name := TrackerModule.AADHAAR.value
      display_name := "Aadhaar Verification"
      description := "Check Aadhaar linkage (Requires disclaimer acceptance)"
      credits := MODULE_CREDITS .AADHAAR
      sensitive := true
      disclaimer_required := some true },
    { name := TrackerModule.DEEP_SEARCH.value
      display_name := "Deep Search / Data Breaches"
      description := "Search for leaked information and data breaches"
      credits := MODULE_CREDITS .DEEP_SEARCH
      sensitive := true
      disclaimer_required := none },
    { name := TrackerModule.LINKED_EMAILS.value
      display_name := "Linked Email Addresses"
      description := "Find email addresses associated with phone/email"
      credits := MODULE_CREDITS .LINKED_EMAILS
      sensitive := false
      disclaimer_required := none },
    { name := TrackerModule.ALTERNATE_NUMBERS.value
      display_name := "Alternate Phone Numbers"
      description := "Find other phone numbers linked to same person"
      credits := MODULE_CREDITS .ALTERNATE_NUMBERS
      sensitive := false
      disclaimer_required := none },
    { name := TrackerModule.BANK_DETAILS.value
      display_name := "Bank Account Details"
      description := "Get bank account information (Requires authorization)"
      credits := MODULE_CREDITS .BANK_DETAILS
      sensitive := true
      disclaimer_required := some true } ]

/-! ## `backend/modules/telegram_bot_service.py` -/

/-- A Python value as it occurs in a parsed-result dict: `None`, a bool,
an int, a string, a list, or a nested dict. -/
inductive PyValue where
  | nil
  | bool (b : Bool)
  | int (n : Int)
  | str (s : String)
  | list (xs : List PyValue)
  | dict (kvs : List (String × PyValue))

/-- A parsed-result dict (`parsed_data`): keys in insertion order. -/
abbrev ParsedData := List (String × PyValue)

/-- Python truthiness of a `PyValue` (the bare `v` in `if v and ...`). -/
def PyValue.truthy : PyValue → Bool
  | .nil => false
  | .bool b => b
  | .int n => n != 0
  | .str s => !s.isEmpty
  | .list xs => !xs.isEmpty
  | .dict kvs => !kvs.isEmpty

/-- `v != []` in Python: false exactly for the empty list. -/
def PyValue.neEmptyList : PyValue → Bool
  | .list [] => false
  | _ => true

/-- `v != {}` in Python: false exactly for the empty dict. -/
def PyValue.neEmptyDict : PyValue → Bool
  | .dict [] => false
  | _ => true

/-- The per-value condition of the generator in `_calculate_confidence`:
`v and v != [] and v != {}`. -/
def countsNonEmpty (v : PyValue) : Bool :=
  v.truthy && v.neEmptyList && v.neEmptyDict

/-- `non_empty_fields = sum(1 for v in parsed_data.values() if v and v != [] and v != \x7b\x7d)`. -/
def nonEmptyFields (parsed_data : ParsedData) : Nat :=
  (parsed_data.filter (fun kv => countsNonEmpty kv.2)).length

/-- `TelegramBotService._calculate_confidence(parsed_data)`.  The float
thresholds `0.7` and `0.4` are modelled as exact rationals (see the file
header). -/
def calculate_confidence (parsed_data : ParsedData) : String :=
  let non_empty_fields := nonEmptyFields parsed_data
  let total_fields := parsed_data.length
  if total_fields = 0 then "low"
  else
    let completeness : ℚ := (non_empty_fields : ℚ) / (total_fields : ℚ)
    if completeness ≥ 7/10 then "high"
    else if completeness ≥ 4/10 then "medium"
    else "low"

/-- One value of the `BOT_CONFIGS` dict. -/
structure BotConfig where
  username : String
  capabilities : List String
  response_time : Nat
deriving Repr, DecidableEq

/-- `TelegramBotService.BOT_CONFIGS`, in declaration (= iteration) order. -/
def BOT_CONFIGS : List (String × BotConfig) :=
  [ ("youleakosint",
      { username := "@YouLeakOsint_bot"
        capabilities := ["deep_search", "linked_emails", "alternate_numbers"]
        response_time := 30 }),
    ("trucaller",
      { username := "@TrucalllerBot"
        capabilities := ["truename", "alternate_numbers"]
        response_time := 15 }),
    ("eyeofgod",
      { username := "@EyeofGodBot"
        capabilities := ["truename", "social_media", "vehicle"]
        response_time := 20 }),
    ("getcontact",
      { username := "@GetContactBot"
        capabilities := ["truename", "social_media"]
        response_time := 15 }),
    ("upi_lookup",
      { username := "@UPILookupBot"
        capabilities := ["upi", "bank_details"]
        response_time := 25 }),
    ("aadhaar_lookup",
      { username := "@AadhaarInfoBot"
        capabilities := ["aadhaar"]
        response_time := 30 }) ]

/-- `TelegramBotService._get_bot_for_module(module)`: first config whose
capability list contains the module. -/
def get_bot_for_module (module : String) : Option BotConfig :=
  ((BOT_CONFIGS.find? (fun bc => bc.2.capabilities.contains module)).map (·.2))

/-- `''.join(filter(str.isdigit, search_value))`. -/
def digitsOnly (s : String) : String :=
  String.mk (s.toList.filter Char.isDigit)

/-- Python's `s.startswith(p)`: `p` is a leading substring of `s`
(character-list comparison). -/
def pyStartswith (s p : String) : Bool :=
  p.toList.isPrefixOf s.toList

/-- `TelegramBotService._format_bot_query(module, search_type, search_value)`:
phone normalization followed by the per-module command template, with the
(normalized) value itself as the fallback for an unknown module. -/
def format_bot_query (module search_type search_value : String) : String :=
  let search_value :=
    if search_type = "phone" then
      let clean_number := digitsOnly search_value
      if !pyStartswith clean_number "91" && clean_number.length == 10 then
        "91" ++ clean_number
      else clean_number
    else search_value
  match module with
  | "truename" => "/search " ++ search_value
  | "social_media" => "/social " ++ search_value
  | "upi" => "/upi " ++ search_value
  | "vehicle" => "/vehicle " ++ search_value
  | "aadhaar" => "/aadhaar " ++ search_value
  | "deep_search" => "/deep " ++ search_value
  | "linked_emails" => "/emails " ++ search_value
  | "alternate_numbers" => "/altnums " ++ search_value
  | "bank_details" => "/bank " ++ search_value
  | _ => search_value

/-! ### The pending-query correlator (`TelegramBotService.query_bot`)

`query_bot` is `async` and interacts with the Telegram client; the
embedding makes the environment explicit:

* the inbound-message handler and the poll loop are summarized by a
  `QueryEvent` describing how the `try` block ends — either an exception
  somewhere inside it (send / wait / parse), or the poll loop finishing
  with the replies the handler had buffered for this query by then
  (an empty buffer is the timeout case);
* `datetime.now().timestamp()` at query-id generation time is the
  explicit argument `qid_time`;
* the per-module response parsers (`_parse_bot_response`'s dispatch
  table of regex extractors) are a parameter `parsers` taking the module,
  the `"\n"`-joined reply text and the search value — no claim depends on
  the parsed field values, only on what `query_bot` does with the result;
* `self.pending_responses` is a map from query id to pending entry,
  passed in and returned.
-/

/-- One buffered reply (`\x7b'text': ..., 'timestamp': ..., 'media': ...\x7d`);
only the `text` field is ever read by `query_bot`, the other two are not
modelled. -/
structure BotReply where
  text : String
deriving Repr, DecidableEq

/-- One `self.pending_responses[query_id]` entry. -/
structure PendingEntry where
  bot_username : String
  responses : List BotReply
  started_at : Nat
deriving Repr, DecidableEq

/-- The `self.pending_responses` dict. -/
def PendingMap := String → Option PendingEntry

/-- How the `try` block of `query_bot` ends. -/
inductive QueryEvent where
  | exc (msg : String) (buffered : List BotReply)
  | waitEnd (buffered : List BotReply)

/-- The replies the inbound handler buffered for this query by the time
the `try` block ended. -/
def QueryEvent.buffered : QueryEvent → List BotReply
  | .exc _ b => b
  | .waitEnd b => b

/-- The dict `query_bot` returns (each branch populates a subset of the
keys; absent keys are `none`). -/
structure QueryResult where
  success : Bool
  module : String
  bot : Option String
  error : Option String
  raw_responses : List String
  parsed_data : Option ParsedData
  confidence : Option String

/-- Whether `query_bot` returned a dict or let an exception propagate
(`ConnectionError` when not connected). -/
inductive QueryReturn where
  | raised (msg : String)
  | returned (r : QueryResult)

/-- `if query_id in self.pending_responses: del self.pending_responses[query_id]`
— the `finally` block of `query_bot`. -/
def removePending (st : PendingMap) (query_id : String) : PendingMap :=
  if (st query_id).isSome then
    fun k => if k = query_id then none else st k
  else st

/-- `TelegramBotService.query_bot(module, search_type, search_value, timeout)`.
Returns the result together with the `pending_responses` map after the
call. -/
def query_bot (parsers : String → String → String → ParsedData)
    (is_connected : Bool) (st : PendingMap)
    (module search_type search_value : String) (qid_time : Nat)
    (ev : QueryEvent) : QueryReturn × PendingMap :=
  if !is_connected then
    (.raised "Not connected to Telegram. Call connect() first.", st)
  else
    match get_bot_for_module module with
    | none =>
        (.returned
          { success := false
            module := module
            bot := none
            error := some ("No bot configured for module: " ++ module)
            raw_responses := []
            parsed_data := none
            confidence := none }, st)
    | some bot_info =>
        let bot_username := bot_info.username
        let query_id := module ++ "_" ++ search_value ++ "_" ++ toString qid_time
        -- query_message = self._format_bot_query(...) is handed to
        -- client.send_message; the transport itself is the environment
        let _query_message := format_bot_query module search_type search_value
        -- registration: pending_responses[query_id] = {bot, [], started_at}
        -- and then, during the wait, the inbound handler appends the
        -- event's buffered replies to this entry
        let afterWait : PendingMap := fun k =>
          if k = query_id then
            some { bot_username := bot_username
                   responses := ev.buffered
                   started_at := qid_time }
          else st k
        match ev with
        | .exc msg _ =>
            (.returned
              { success := false
                module := module
                bot := some bot_username
                error := some msg
                raw_responses := []
                parsed_data := none
                confidence := none }, removePending afterWait query_id)
        | .waitEnd buffered =>
            if buffered.isEmpty then
              (.returned
                { success := false
                  module := module
                  bot := some bot_username
                  error := some "No response from bot within timeout"
                  raw_responses := []
                  parsed_data := none
                  confidence := none }, removePending afterWait query_id)
            else
              let combined := String.intercalate "\n" (buffered.map (·.text))
              let parsed_result := parsers module combined search_value
              (.returned
                { success := true
                  module := module
                  bot := some bot_username
                  error := none
                  raw_responses := buffered.map (·.text)
                  parsed_data := some parsed_result
                  confidence := some (calculate_confidence parsed_result) },
                removePending afterWait query_id)

/-! ## Search orchestration (`TrackerService.execute_search`)

The per-module bot interaction is the environment: each requested module
comes paired with the outcome of its `query_bot` call — either a success
dict (carrying `parsed_data`, `bot` and `confidence`) or a failure dict
(carrying `error` and possibly `bot`).  `execute_search` itself only
reads these keys.  Storage exceptions (the outer `except` that marks the
whole search failed) are outside the embedding; no claim concerns them.
-/

/-- What the orchestrator reads out of a `query_bot` result dict. -/
inductive BotOutcome where
  | ok (parsed_data : ParsedData) (bot : String) (confidence : String)
  | failed (error : Option String) (bot : Option String)

/-- The `result_data` column of a `number_email_results` row:
`json.dumps(bot_response.get('parsed_data', \x7b\x7d))` on the success path,
`json.dumps(\x7b'error': bot_response.get('error')\x7d)` on the failure path.
The JSON string is modelled structurally. -/
inductive StoredData where
  | parsedJson (data : ParsedData)
  | errorJson (error : Option String)

/-- One `NumberEmailResult` row as created by `execute_search`
(`retrieved_at` is a database default and no claim reads it). -/
structure NumberEmailResult where
  search_id : Nat
  module_name : String
  result_type : String
  result_data : StoredData
  source : Option String
  confidence : String

/-- The success-path `NumberEmailResult(...)` record. -/
def mkSuccessRow (search_id : Nat) (module : TrackerModule)
    (parsed_data : ParsedData) (bot confidence : String) : NumberEmailResult :=
  { search_id := search_id
    module_name := module.value
    result_type := module.value
    result_data := .parsedJson parsed_data
    source := some bot
    confidence := confidence }

/-- The failure-path `NumberEmailResult(...)` record (confidence `'low'`). -/
def mkFailureRow (search_id : Nat) (module : TrackerModule)
    (error : Option String) (bot : Option String) : NumberEmailResult :=
  { search_id := search_id
    module_name := module.value
    result_type := module.value
    result_data := .errorJson error
    source := bot
    confidence := "low" }

/-- The loop state of `execute_search`: the database slice it mutates
(ledger plus result rows) and the two running counters. -/
structure SearchExec where
  ledger : LedgerState
  rows : List NumberEmailResult
  total_credits_used : Int
  successful_modules : Nat

/-- One iteration of the `for module in modules` loop of
`execute_search`. -/
def execStep (user_id search_id : Nat) (acc : SearchExec)
    (mb : TrackerModule × BotOutcome) : SearchExec :=
  let module := mb.1
  let module_credits := MODULE_CREDITS module
  match mb.2 with
  | .ok parsed_data bot confidence =>
      let ded := deduct_credits acc.ledger user_id module_credits search_id
        ("Tracker search - " ++ module.value)
      if ded.1 then
        { ledger := ded.2
          rows := acc.rows ++ [mkSuccessRow search_id module parsed_data bot confidence]
          total_credits_used := acc.total_credits_used + module_credits
          successful_modules := acc.successful_modules + 1 }
      else
        -- no `else` in the source: the module neither charges nor
        -- stores a row when the debit fails after a successful query
        { acc with ledger := ded.2 }
  | .failed error bot =>
      { acc with rows := acc.rows ++ [mkFailureRow search_id module error bot] }

/-- What `execute_search` leaves behind: the final loop state plus the
`status` and `credits_used` written back to the search row. -/
structure ExecResult where
  final : SearchExec
  status : String
  credits_used : Int

/-- `TrackerService.execute_search(search_id, modules)` from the point
where the search row was found, the service is connected and the status
was set to `"in_progress"`; `user_id` is `search.user_id` and `ledger0`
the database slice at loop entry. -/
def execute_search (user_id search_id : Nat) (ledger0 : LedgerState)
    (modules : List (TrackerModule × BotOutcome)) : ExecResult :=
  let final := modules.foldl (execStep user_id search_id)
    { ledger := ledger0, rows := [], total_credits_used := 0, successful_modules := 0 }
  { final := final
    status := if final.successful_modules > 0 then "completed" else "failed"
    credits_used := final.total_credits_used }

/-! ## Summary aggregation (`TrackerService._generate_summary`)

The `confidence_assessment` field of the summary is computed solely from
the `confidence` values of the module-result dicts (`r.get('confidence')`
over `module_results`); the embedding takes that projection as input.
The float literals `0.6` and `0.3` are modelled as exact rationals. -/

/-- The `confidence_assessment` computation at the end of
`_generate_summary`: `high_confidence_count >= len(module_results) * 0.6`
picks `'high'`, then `* 0.3` picks `'medium'`, else `'low'`. -/
def generate_summary_confidence (confidences : List String) : String :=
  let high_confidence_count := (confidences.filter (fun c => c == "high")).length
  if (high_confidence_count : ℚ) ≥ (confidences.length : ℚ) * (6/10) then "high"
  else if (high_confidence_count : ℚ) ≥ (confidences.length : ℚ) * (3/10) then "medium"
  else "low"

/-! ## Derived notions used by the theorems -/

/-- Test fixture: the claim's pay-per-success scenario — identity
(truename, 5 credits) answers, social times out. -/
def partialSuccessScenario : List (TrackerModule × BotOutcome) :=
  [(.TRUE_NAME, .ok [("name", PyValue.str "A")] "@TrucalllerBot" "high"),
   (.SOCIAL_MEDIA, .failed (some "No response from bot within timeout")
      (some "@EyeofGodBot"))]

/-- Test fixture: every requested module times out. -/
def allFailScenario : List (TrackerModule × BotOutcome) :=
  [(.TRUE_NAME, .failed (some "No response from bot within timeout")
      (some "@TrucalllerBot")),
   (.SOCIAL_MEDIA, .failed (some "No response from bot within timeout")
      (some "@EyeofGodBot"))]

/-- Test fixture: the bot answers but the balance (3) cannot cover the
truename cost (5), so the debit fails mid-batch. -/
def debitFailScenario : List (TrackerModule × BotOutcome) :=
  [(.TRUE_NAME, .ok [("name", PyValue.str "A")] "@TrucalllerBot" "high")]

/-- Whether a stored row is a success row (its `result_data` is a parsed
payload rather than an error wrapper). -/
def rowOk (r : NumberEmailResult) : Bool :=
  match r.result_data with
  | .parsedJson _ => true
  | .errorJson _ => false

/-- The credit cost of a module given its string name (`0` for an unknown
name, matching `MODULE_CREDITS.get(module, 0)`). -/
def costOfName (n : String) : Int :=
  ((allTrackerModules.find? (fun m => m.value == n)).map MODULE_CREDITS).getD 0

/-- Total cost of the success rows in a result-row list. -/
def okCostSum (rows : List NumberEmailResult) : Int :=
  ((rows.filter rowOk).map (fun r => costOfName r.module_name)).sum

/-- Test fixture: a parsed-result dict with `total` distinct keys of which
the first `filled` hold a non-empty string and the rest hold `None`. -/
def mkFields (filled total : Nat) : ParsedData :=
  (List.range total).map
    (fun i => (toString i, if i < filled then PyValue.str "x" else PyValue.nil))

/-! ## Helper lemmas -/

/-- A failed debit (either `return False` exit) leaves the database slice
untouched. -/
theorem deduct_credits_fail_state (st : LedgerState) (uid : Nat) (amount : Int)
    (sid : Nat) (d : String) (h : (deduct_credits st uid amount sid d).1 = false) :
    (deduct_credits st uid amount sid d).2 = st := by
  unfold deduct_credits at *
  cases hu : findUser st.users uid with
  | none => simp [hu]
  | some bal =>
      simp only [hu] at h ⊢
      by_cases hlt : bal < amount
      · simp [hlt]
      · simp [hlt] at h

/-- Updating the credits of a user that exists is visible to `findUser`. -/
theorem findUser_setUser (users : List (Nat × Int)) (uid : Nat) (b c : Int)
    (h : findUser users uid = some b) :
    findUser (setUser users uid c) uid = some c := by
  induction users with
  | nil => simp [findUser] at h
  | cons p rest ih =>
      obtain ⟨u, c0⟩ := p
      by_cases hu : u = uid
      · subst hu; simp [findUser, setUser]
      · simp only [findUser, setUser, if_neg hu] at h ⊢
        exact ih h

/-- The success exit of `deduct_credits`: the debit went through exactly
when the balance covered the amount, the balance is decremented, and
exactly the one debit row is appended. -/
theorem deduct_credits_success_state (st : LedgerState) (uid : Nat) (amount : Int)
    (sid : Nat) (d : String) (bal : Int)
    (hb : findUser st.users uid = some bal)
    (hok : (deduct_credits st uid amount sid d).1 = true) :
    amount ≤ bal ∧
    findUser (deduct_credits st uid amount sid d).2.users uid = some (bal - amount) ∧
    (deduct_credits st uid amount sid d).2.transactions
      = st.transactions ++ [mkDebitTransaction uid amount bal (bal - amount) sid d] := by
  unfold deduct_credits at *
  simp only [hb] at hok ⊢
  by_cases hlt : bal < amount
  · simp [hlt] at hok
  · refine ⟨le_of_not_lt hlt, ?_, ?_⟩
    · simp only [if_neg hlt]
      exact findUser_setUser st.users uid bal (bal - amount) hb
    · simp [hlt]

/-- Appending a row whose balance-before matches the last row's
balance-after keeps the list chained. -/
theorem chained_snoc (ts : List CreditTransaction) (t : CreditTransaction)
    (h : chained ts = true)
    (hlink : ∀ t0, ts.getLast? = some t0 → t0.balance_after = t.balance_before) :
    chained (ts ++ [t]) = true := by
  induction ts with
  | nil => simp [chained]
  | cons t1 rest ih =>
      cases rest with
      | nil =>
          have := hlink t1 rfl
          simp [chained, this]
      | cons t2 rest2 =>
          simp only [chained, Bool.and_eq_true, beq_iff_eq] at h
          have htail := ih h.2 (fun t0 h0 => hlink t0 (by simpa using h0))
          simp only [List.cons_append, chained, Bool.and_eq_true, beq_iff_eq]
          exact ⟨h.1, by simpa [List.cons_append] using htail⟩

/-- The last element of a list with one element appended. -/
theorem getLast?_snoc (ts : List CreditTransaction) (t : CreditTransaction) :
    (ts ++ [t]).getLast? = some t := by
  induction ts with
  | nil => rfl
  | cons t1 rest ih => cases rest <;> simp_all

/-- `deduct_credits` preserves the per-user ledger invariant. -/
theorem ledgerWf_deduct (st : LedgerState) (uid : Nat) (amount : Int)
    (sid : Nat) (d : String) (hwf : ledgerWf st uid = true) :
    ledgerWf (deduct_credits st uid amount sid d).2 uid = true := by
  cases hres : (deduct_credits st uid amount sid d).1 with
  | false => rw [deduct_credits_fail_state st uid amount sid d hres]; exact hwf
  | true =>
      cases hb : findUser st.users uid with
      | none => unfold deduct_credits at hres; simp [hb] at hres
      | some bal =>
          obtain ⟨hle, hfind, htx⟩ :=
            deduct_credits_success_state st uid amount sid d bal hb hres
          unfold ledgerWf at hwf ⊢
          rw [hb] at hwf
          rw [hfind]
          simp only [Bool.and_eq_true, decide_eq_true_eq] at hwf
          obtain ⟨⟨⟨hpos, hall⟩, hchain⟩, hlast⟩ := hwf
          have hutx : userTransactions (deduct_credits st uid amount sid d).2 uid
              = userTransactions st uid
                ++ [mkDebitTransaction uid amount bal (bal - amount) sid d] := by
            unfold userTransactions
            rw [htx, List.filter_append]
            simp [mkDebitTransaction]
          simp only [Bool.and_eq_true, decide_eq_true_eq, hutx]
          refine ⟨⟨⟨by omega, ?_⟩, ?_⟩, ?_⟩
          · rw [List.all_append, Bool.and_eq_true]
            exact ⟨hall, by simp [entryOk, mkDebitTransaction]⟩
          · refine chained_snoc _ _ hchain ?_
            intro t0 h0
            unfold balanceMatches at hlast
            rw [h0] at hlast
            simpa [mkDebitTransaction] using hlast
          · unfold balanceMatches
            rw [getLast?_snoc]
            simp [mkDebitTransaction]

/-- The success exit of `add_credits`: it succeeds exactly when the user
exists, increments the balance and appends the one credit row. -/
theorem add_credits_success_state (st : LedgerState) (uid : Nat) (amount : Int)
    (admin : Nat) (desc : Option String) (bal : Int)
    (hb : findUser st.users uid = some bal) :
    (add_credits st uid amount admin desc).1 = true ∧
    findUser (add_credits st uid amount admin desc).2.users uid = some (bal + amount) ∧
    (add_credits st uid amount admin desc).2.transactions
      = st.transactions ++ [mkCreditTransaction uid amount bal (bal + amount) admin desc] := by
  unfold add_credits
  simp only [hb]
  exact ⟨trivial, findUser_setUser st.users uid bal (bal + amount) hb, trivial⟩

/-- `add_credits` preserves the per-user ledger invariant for
non-negative amounts. -/
theorem ledgerWf_add (st : LedgerState) (uid : Nat) (amount : Int)
    (admin : Nat) (desc : Option String) (hamt : 0 ≤ amount)
    (hwf : ledgerWf st uid = true) :
    ledgerWf (add_credits st uid amount admin desc).2 uid = true := by
  cases hb : findUser st.users uid with
  | none => unfold add_credits; simp only [hb]; exact hwf
  | some bal =>
      obtain ⟨_, hfind, htx⟩ := add_credits_success_state st uid amount admin desc bal hb
      unfold ledgerWf at hwf ⊢
      rw [hb] at hwf
      rw [hfind]
      simp only [Bool.and_eq_true, decide_eq_true_eq] at hwf
      obtain ⟨⟨⟨hpos, hall⟩, hchain⟩, hlast⟩ := hwf
      have hutx : userTransactions (add_credits st uid amount admin desc).2 uid
          = userTransactions st uid
            ++ [mkCreditTransaction uid amount bal (bal + amount) admin desc] := by
        unfold userTransactions
        rw [htx, List.filter_append]
        simp [mkCreditTransaction]
      simp only [Bool.and_eq_true, decide_eq_true_eq, hutx]
      refine ⟨⟨⟨by omega, ?_⟩, ?_⟩, ?_⟩
      · rw [List.all_append, Bool.and_eq_true]
        exact ⟨hall, by simp [entryOk, mkCreditTransaction]⟩
      · refine chained_snoc _ _ hchain ?_
        intro t0 h0
        unfold balanceMatches at hlast
        rw [h0] at hlast
        simpa [mkCreditTransaction] using hlast
      · unfold balanceMatches
        rw [getLast?_snoc]
        simp [mkCreditTransaction]

/-- Comparing a count-over-count fraction against `a/10` is the integer
comparison `a * t ≤ 10 * n`. -/
theorem ratio_ge_iff (n t a : Nat) (ht : 0 < t) :
    ((a : ℚ)/10 ≤ (n : ℚ) / (t : ℚ)) ↔ a * t ≤ 10 * n := by
  rw [div_le_div_iff₀ (by norm_num) (by exact_mod_cast ht)]
  constructor
  · intro h
    have h2 : ((a * t : Nat) : ℚ) ≤ ((10 * n : Nat) : ℚ) := by push_cast; linarith
    exact_mod_cast h2
  · intro h
    have h2 : ((a * t : Nat) : ℚ) ≤ ((10 * n : Nat) : ℚ) := by exact_mod_cast h
    push_cast at h2; linarith

/-- Comparing a count against `t * (p/10)` is the integer comparison
`p * t ≤ 10 * n`. -/
theorem mul_ratio_le_iff (n t p : Nat) (r : ℚ) (hr : r = (p : ℚ)/10) :
    ((t : ℚ) * r ≤ (n : ℚ)) ↔ p * t ≤ 10 * n := by
  subst hr
  rw [mul_comm, div_mul_eq_mul_div, div_le_iff₀ (by norm_num)]
  constructor <;> intro h
  · have h2 : ((p * t : Nat) : ℚ) ≤ ((10 * n : Nat) : ℚ) := by push_cast; linarith
    exact_mod_cast h2
  · have h2 : ((p * t : Nat) : ℚ) ≤ ((10 * n : Nat) : ℚ) := by exact_mod_cast h
    push_cast at h2; linarith

/-! ## Claim theorems -/

/-- Claim C3: every successful `deduct_credits` (resp. `add_credits`)
call appends exactly one `CreditTransaction` with
`balance_after = balance_before - amount` (resp. `+ amount`) and stores
that balance-after as the user's balance; a debit succeeds only when the
balance covers the amount, so after any successful ledger operation the
balance is never negative and the user's transactions chain (each
entry's balance-before equals the previous entry's balance-after) — the
latter two facts as preservation of `ledgerWf`. -/
theorem ledger_operations_correct
    (st : LedgerState) (uid sid admin : Nat) (amount : Int)
    (d : String) (desc : Option String)
    (hamt : 0 ≤ amount) (hwf : ledgerWf st uid = true) :
    ((deduct_credits st uid amount sid d).1 = true ↔
        ∃ bal, findUser st.users uid = some bal ∧ amount ≤ bal) ∧
    (∀ bal, findUser st.users uid = some bal →
        (deduct_credits st uid amount sid d).1 = true →
        (deduct_credits st uid amount sid d).2.transactions
          = st.transactions ++ [mkDebitTransaction uid amount bal (bal - amount) sid d] ∧
        findUser (deduct_credits st uid amount sid d).2.users uid
          = some (bal - amount)) ∧
    (∀ bal, findUser st.users uid = some bal →
        (add_credits st uid amount admin desc).1 = true ∧
        (add_credits st uid amount admin desc).2.transactions
          = st.transactions ++ [mkCreditTransaction uid amount bal (bal + amount) admin desc] ∧
        findUser (add_credits st uid amount admin desc).2.users uid
          = some (bal + amount)) ∧
    ledgerWf (deduct_credits st uid amount sid d).2 uid = true ∧
    ledgerWf (add_credits st uid amount admin desc).2 uid = true := by
  refine ⟨?_, ?_, ?_, ledgerWf_deduct st uid amount sid d hwf,
    ledgerWf_add st uid amount admin desc hamt hwf⟩
  · constructor
    · intro hok
      cases hb : findUser st.users uid with
      | none => unfold deduct_credits at hok; simp [hb] at hok
      | some bal =>
          exact ⟨bal, rfl,
            (deduct_credits_success_state st uid amount sid d bal hb hok).1⟩
    · rintro ⟨bal, hb, hle⟩
      unfold deduct_credits
      simp [hb, not_lt.mpr hle]
  · intro bal hb hok
    obtain ⟨_, hfind, htx⟩ := deduct_credits_success_state st uid amount sid d bal hb hok
    exact ⟨htx, hfind⟩
  · intro bal hb
    obtain ⟨hok, hfind, htx⟩ := add_credits_success_state st uid amount admin desc bal hb
    exact ⟨hok, htx, hfind⟩

/-- Witness for C3 at a concrete ledger. -/
theorem ledger_operations_correct_witness :
    ledgerWf (deduct_credits ⟨[(1, 10)], []⟩ 1 3 7 "Tracker search - truename").2 1
      = true ∧
    ledgerWf (add_credits ⟨[(1, 10)], []⟩ 1 3 2 none).2 1 = true :=
  ⟨(ledger_operations_correct ⟨[(1, 10)], []⟩ 1 7 2 3 "Tracker search - truename"
      none (by decide) (by decide)).2.2.2.1,
   (ledger_operations_correct ⟨[(1, 10)], []⟩ 1 7 2 3 "Tracker search - truename"
      none (by decide) (by decide)).2.2.2.2⟩

/-- Claim C4: a `deduct_credits` call for a missing user or with a
balance strictly below the amount returns failure, appends no
transaction row and leaves the whole database slice unchanged. -/
theorem deduct_credits_error_leaves_state
    (st : LedgerState) (uid : Nat) (amount : Int) (sid : Nat) (d : String)
    (h : findUser st.users uid = none ∨
         ∃ bal, findUser st.users uid = some bal ∧ bal < amount) :
    (deduct_credits st uid amount sid d).1 = false ∧
    (deduct_credits st uid amount sid d).2.transactions = st.transactions ∧
    (deduct_credits st uid amount sid d).2 = st := by
  have hfail : (deduct_credits st uid amount sid d).1 = false := by
    rcases h with h | ⟨bal, hb, hlt⟩
    · unfold deduct_credits; simp [h]
    · unfold deduct_credits; simp [hb, hlt]
  exact ⟨hfail, by rw [deduct_credits_fail_state st uid amount sid d hfail],
    deduct_credits_fail_state st uid amount sid d hfail⟩

/-- Witness for C4: balance 2, debit 5. -/
theorem deduct_credits_error_leaves_state_witness :
    (deduct_credits ⟨[(1, 2)], []⟩ 1 5 9 "Tracker search - truename").1 = false ∧
    (deduct_credits ⟨[(1, 2)], []⟩ 1 5 9 "Tracker search - truename").2
      = ⟨[(1, 2)], []⟩ :=
  have h := deduct_credits_error_leaves_state ⟨[(1, 2)], []⟩ 1 5 9
    "Tracker search - truename" (Or.inr ⟨2, rfl, by decide⟩)
  ⟨h.1, h.2.2⟩

/-- Claim C9: the cost table is exactly
truename 5, social_media 3, upi 10, vehicle 15, aadhaar 20,
deep_search 25, linked_emails 8, alternate_numbers 10, bank_details 30;
and the `/modules` catalog has, for every module, exactly one entry whose
reported cost is that same value, together with a sensitivity flag. -/
theorem module_cost_table_exact :
    MODULE_CREDITS .TRUE_NAME = 5 ∧ MODULE_CREDITS .SOCIAL_MEDIA = 3 ∧
    MODULE_CREDITS .UPI_ID = 10 ∧ MODULE_CREDITS .VEHICLE = 15 ∧
    MODULE_CREDITS .AADHAAR = 20 ∧ MODULE_CREDITS .DEEP_SEARCH = 25 ∧
    MODULE_CREDITS .LINKED_EMAILS = 8 ∧ MODULE_CREDITS .ALTERNATE_NUMBERS = 10 ∧
    MODULE_CREDITS .BANK_DETAILS = 30 ∧
    ∀ m : TrackerModule,
      (available_modules.filter (fun e => e.name == m.value)).map
          (fun e => e.credits) = [ MODULE_CREDITS m ] ∧
      ∃ s : Bool,
        (available_modules.filter (fun e => e.name == m.value)).map
            (fun e => e.sensitive) = [s] := by
  refine ⟨rfl, rfl, rfl, rfl, rfl, rfl, rfl, rfl, rfl, ?_⟩
  intro m
  cases m <;> exact ⟨rfl, _, rfl⟩

/-- Claim C10: the summary aggregator applied to an empty module-result
list reports overall confidence `'high'` (the comparison `0 >= 0 * 0.6`
holds), not `'low'`. -/
theorem generate_summary_confidence_empty :
    generate_summary_confidence [] = "high" ∧
    generate_summary_confidence [] ≠ "low" := by
  have h : generate_summary_confidence [] = "high" := by
    unfold generate_summary_confidence
    norm_num
  exact ⟨h, by rw [h]; decide⟩

/-- Claim C6: `_calculate_confidence` returns `'high'` when the fraction
of non-empty fields is at least `0.7`, `'medium'` when it is at least
`0.4` but below `0.7`, and `'low'` otherwise; a result with zero fields
scores `'low'`.  The fractions are stated as the equivalent integer
comparisons (`n/t ≥ 7/10 ↔ 7t ≤ 10n` for `t > 0`). -/
theorem calculate_confidence_thresholds (pd : ParsedData) :
    (pd.length = 0 → calculate_confidence pd = "low") ∧
    (0 < pd.length →
      ((calculate_confidence pd = "high" ↔
          7 * pd.length ≤ 10 * nonEmptyFields pd) ∧
       (calculate_confidence pd = "medium" ↔
          4 * pd.length ≤ 10 * nonEmptyFields pd ∧
          10 * nonEmptyFields pd < 7 * pd.length) ∧
       (calculate_confidence pd = "low" ↔
          10 * nonEmptyFields pd < 4 * pd.length))) := by
  constructor
  · intro h
    unfold calculate_confidence
    simp [h]
  · intro ht
    have h0 : ¬ pd.length = 0 := by omega
    have h7 := ratio_ge_iff (nonEmptyFields pd) pd.length 7 ht
    have h4 := ratio_ge_iff (nonEmptyFields pd) pd.length 4 ht
    have hgoal : calculate_confidence pd =
        (if (7:ℚ)/10 ≤ (nonEmptyFields pd : ℚ) / (pd.length : ℚ) then "high"
         else if (4:ℚ)/10 ≤ (nonEmptyFields pd : ℚ) / (pd.length : ℚ) then "medium"
         else "low") := by
      unfold calculate_confidence
      rw [if_neg h0]
    rw [hgoal]
    by_cases hc7 : (7:ℚ)/10 ≤ (nonEmptyFields pd : ℚ) / (pd.length : ℚ)
    · rw [if_pos hc7]
      have hin := h7.mp hc7
      refine ⟨⟨fun _ => hin, fun _ => rfl⟩, ?_, ?_⟩
      · exact ⟨fun h => absurd h (by decide), fun h => absurd hin (by omega)⟩
      · exact ⟨fun h => absurd h (by decide), fun h => absurd hin (by omega)⟩
    · rw [if_neg hc7]
      have h7n : ¬ 7 * pd.length ≤ 10 * nonEmptyFields pd :=
        fun h => hc7 (h7.mpr h)
      by_cases hc4 : (4:ℚ)/10 ≤ (nonEmptyFields pd : ℚ) / (pd.length : ℚ)
      · rw [if_pos hc4]
        have hin := h4.mp hc4
        refine ⟨⟨fun h => absurd h (by decide), fun h => absurd h h7n⟩, ?_, ?_⟩
        · exact ⟨fun _ => ⟨hin, by omega⟩, fun _ => rfl⟩
        · exact ⟨fun h => absurd h (by decide), fun h => absurd hin (by omega)⟩
      · rw [if_neg hc4]
        have h4n : ¬ 4 * pd.length ≤ 10 * nonEmptyFields pd :=
          fun h => hc4 (h4.mpr h)
        refine ⟨⟨fun h => absurd h (by decide), fun h => absurd h h7n⟩, ?_, ?_⟩
        · exact ⟨fun h => absurd h (by decide), fun h => absurd h.1 h4n⟩
        · exact ⟨fun _ => by omega, fun _ => rfl⟩

/-- Witness for C6: the claim's four boundary percentages, through the
theorem. -/
theorem calculate_confidence_thresholds_witness :
    calculate_confidence (mkFields 7 10) = "high" ∧
    calculate_confidence (mkFields 69 100) = "medium" ∧
    calculate_confidence (mkFields 4 10) = "medium" ∧
    calculate_confidence (mkFields 39 100) = "low" :=
  ⟨((calculate_confidence_thresholds (mkFields 7 10)).2 (by decide)).1.mpr
      (by decide),
   ((calculate_confidence_thresholds (mkFields 69 100)).2 (by decide)).2.1.mpr
      ⟨by decide, by decide⟩,
   ((calculate_confidence_thresholds (mkFields 4 10)).2 (by decide)).2.1.mpr
      ⟨by decide, by decide⟩,
   ((calculate_confidence_thresholds (mkFields 39 100)).2 (by decide)).2.2.mpr
      (by decide)⟩

/-- Claim C7: for a non-empty module-result list the overall confidence
assessment is `'high'` when the ratio of `'high'`-confidence results to
the total is at least `0.6`, `'medium'` when it is at least `0.3` but
below `0.6`, and `'low'` otherwise — stated as the equivalent integer
comparisons. -/
theorem generate_summary_confidence_thresholds (cs : List String)
    (_hne : cs ≠ []) :
    (generate_summary_confidence cs = "high" ↔
       6 * cs.length ≤ 10 * (cs.filter (fun c => c == "high")).length) ∧
    (generate_summary_confidence cs = "medium" ↔
       3 * cs.length ≤ 10 * (cs.filter (fun c => c == "high")).length ∧
       10 * (cs.filter (fun c => c == "high")).length < 6 * cs.length) ∧
    (generate_summary_confidence cs = "low" ↔
       10 * (cs.filter (fun c => c == "high")).length < 3 * cs.length) := by
  have h6 := mul_ratio_le_iff (cs.filter (fun c => c == "high")).length
    cs.length 6 (6/10) (by norm_num)
  have h3 := mul_ratio_le_iff (cs.filter (fun c => c == "high")).length
    cs.length 3 (3/10) (by norm_num)
  have hgoal : generate_summary_confidence cs =
      (if ((cs.filter (fun c => c == "high")).length : ℚ)
            ≥ (cs.length : ℚ) * (6/10) then "high"
       else if ((cs.filter (fun c => c == "high")).length : ℚ)
            ≥ (cs.length : ℚ) * (3/10) then "medium"
       else "low") := by
    unfold generate_summary_confidence
    rfl
  rw [hgoal]
  by_cases hc6 : ((cs.filter (fun c => c == "high")).length : ℚ)
      ≥ (cs.length : ℚ) * (6/10)
  · rw [if_pos hc6]
    have hin := h6.mp hc6
    refine ⟨⟨fun _ => hin, fun _ => rfl⟩, ?_, ?_⟩
    · exact ⟨fun h => absurd h (by decide), fun h => absurd hin (by omega)⟩
    · exact ⟨fun h => absurd h (by decide), fun h => absurd hin (by omega)⟩
  · rw [if_neg hc6]
    have h6n : ¬ 6 * cs.length ≤ 10 * (cs.filter (fun c => c == "high")).length :=
      fun h => hc6 (h6.mpr h)
    by_cases hc3 : ((cs.filter (fun c => c == "high")).length : ℚ)
        ≥ (cs.length : ℚ) * (3/10)
    · rw [if_pos hc3]
      have hin := h3.mp hc3
      refine ⟨⟨fun h => absurd h (by decide), fun h => absurd h h6n⟩, ?_, ?_⟩
      · exact ⟨fun _ => ⟨hin, by omega⟩, fun _ => rfl⟩
      · exact ⟨fun h => absurd h (by decide), fun h => absurd hin (by omega)⟩
    · rw [if_neg hc3]
      have h3n : ¬ 3 * cs.length ≤ 10 * (cs.filter (fun c => c == "high")).length :=
        fun h => hc3 (h3.mpr h)
      refine ⟨⟨fun h => absurd h (by decide), fun h => absurd h h6n⟩, ?_, ?_⟩
      · exact ⟨fun h => absurd h (by decide), fun h => absurd h.1 h3n⟩
      · exact ⟨fun _ => by omega, fun _ => rfl⟩

/-- Witness for C7: the claim's four boundary ratios, through the
theorem. -/
theorem generate_summary_confidence_thresholds_witness :
    generate_summary_confidence
        (List.replicate 6 "high" ++ List.replicate 4 "low") = "high" ∧
    generate_summary_confidence
        (List.replicate 59 "high" ++ List.replicate 41 "low") = "medium" ∧
    generate_summary_confidence
        (List.replicate 30 "high" ++ List.replicate 70 "low") = "medium" ∧
    generate_summary_confidence
        (List.replicate 29 "high" ++ List.replicate 71 "low") = "low" :=
  ⟨(generate_summary_confidence_thresholds _ (by decide)).1.mpr (by decide),
   (generate_summary_confidence_thresholds _ (by decide)).2.1.mpr
     ⟨by decide, by decide⟩,
   (generate_summary_confidence_thresholds _ (by decide)).2.1.mpr
     ⟨by decide, by decide⟩,
   (generate_summary_confidence_thresholds _ (by decide)).2.2.mpr (by decide)⟩

/-- Claim C8: the formatter strips non-digits from phone values and
prepends the country code `'91'` exactly when the stripped value has ten
digits and lacks that leading code; email values pass through unchanged;
each known module maps to its fixed command template; an unknown module
yields the (normalized) value itself as the whole command body. -/
theorem format_bot_query_spec (m v : String) :
    (format_bot_query "truename" "email" v = "/search " ++ v) ∧
    (format_bot_query "social_media" "email" v = "/social " ++ v) ∧
    (format_bot_query "upi" "email" v = "/upi " ++ v) ∧
    (format_bot_query "vehicle" "email" v = "/vehicle " ++ v) ∧
    (format_bot_query "aadhaar" "email" v = "/aadhaar " ++ v) ∧
    (format_bot_query "deep_search" "email" v = "/deep " ++ v) ∧
    (format_bot_query "linked_emails" "email" v = "/emails " ++ v) ∧
    (format_bot_query "alternate_numbers" "email" v = "/altnums " ++ v) ∧
    (format_bot_query "bank_details" "email" v = "/bank " ++ v) ∧
    (m ∉ ["truename", "social_media", "upi", "vehicle", "aadhaar",
          "deep_search", "linked_emails", "alternate_numbers", "bank_details"] →
       format_bot_query m "email" v = v) ∧
    ((digitsOnly v).length = 10 → pyStartswith (digitsOnly v) "91" = false →
       format_bot_query "upi" "phone" v = "/upi " ++ ("91" ++ digitsOnly v)) ∧
    ((digitsOnly v).length = 10 → pyStartswith (digitsOnly v) "91" = false →
       m ∉ ["truename", "social_media", "upi", "vehicle", "aadhaar",
            "deep_search", "linked_emails", "alternate_numbers", "bank_details"] →
       format_bot_query m "phone" v = "91" ++ digitsOnly v) ∧
    ((digitsOnly v).length ≠ 10 ∨ pyStartswith (digitsOnly v) "91" = true →
       format_bot_query "upi" "phone" v = "/upi " ++ digitsOnly v) := by
  refine ⟨rfl, rfl, rfl, rfl, rfl, rfl, rfl, rfl, rfl, ?_, ?_, ?_, ?_⟩
  · intro hm
    simp only [List.mem_cons, List.not_mem_nil, or_false, not_or] at hm
    obtain ⟨h1, h2, h3, h4, h5, h6, h7, h8, h9⟩ := hm
    unfold format_bot_query
    simp only [if_neg (by decide : ¬ ("email" = "phone"))]
  · intro h1 h2
    unfold format_bot_query
    simp [h1, h2]
  · intro h1 h2 hm
    simp only [List.mem_cons, List.not_mem_nil, or_false, not_or] at hm
    obtain ⟨hm1, hm2, hm3, hm4, hm5, hm6, hm7, hm8, hm9⟩ := hm
    unfold format_bot_query
    simp [h1, h2]
  · intro h
    have hcond : (!pyStartswith (digitsOnly v) "91"
        && (digitsOnly v).length == 10) = false := by
      rcases h with h | h
      · have hb : ((digitsOnly v).length == 10) = false := by
          simpa using h
        simp [hb]
      · simp [h]
    unfold format_bot_query
    simp [hcond]

/-- Witness for C8: an unknown module with an email value, a ten-digit
phone value gaining the prefix, and an already-prefixed phone value left
alone. -/
theorem format_bot_query_spec_witness :
    format_bot_query "zzz" "email" "someone@example.com" = "someone@example.com" ∧
    format_bot_query "upi" "phone" "98765 43210"
      = "/upi " ++ ("91" ++ digitsOnly "98765 43210") ∧
    format_bot_query "upi" "phone" "+91 9876543210"
      = "/upi " ++ digitsOnly "+91 9876543210" :=
  ⟨(format_bot_query_spec "zzz" "someone@example.com").2.2.2.2.2.2.2.2.2.1
      (by decide),
   (format_bot_query_spec "zzz" "98765 43210").2.2.2.2.2.2.2.2.2.2.1
      (by decide) (by decide),
   (format_bot_query_spec "zzz" "+91 9876543210").2.2.2.2.2.2.2.2.2.2.2.2
      (Or.inl (by decide))⟩

/-- Claim C5: whenever `query_bot` registers a pending entry (the
service is connected and a bot is configured for the module), the
`pending_responses` entry for the generated query id is removed before
the call returns, on every exit path — reply received, timeout with an
empty buffer, and exception inside the `try` block — and no other key of
the map is touched. -/
theorem query_bot_cleans_pending
    (parsers : String → String → String → ParsedData)
    (st : PendingMap) (module search_type search_value : String)
    (qid_time : Nat) (ev : QueryEvent)
    (hbot : (get_bot_for_module module).isSome = true) :
    ((query_bot parsers true st module search_type search_value qid_time ev).2
        (module ++ "_" ++ search_value ++ "_" ++ toString qid_time) = none) ∧
    (∀ k, k ≠ module ++ "_" ++ search_value ++ "_" ++ toString qid_time →
       (query_bot parsers true st module search_type search_value qid_time ev).2 k
         = st k) := by
  obtain ⟨cfg, hcfg⟩ := Option.isSome_iff_exists.mp hbot
  have hsnd : (query_bot parsers true st module search_type search_value qid_time ev).2
      = removePending
          (fun k => if k = module ++ "_" ++ search_value ++ "_" ++ toString qid_time then
              some { bot_username := cfg.username
                     responses := ev.buffered
                     started_at := qid_time }
            else st k)
          (module ++ "_" ++ search_value ++ "_" ++ toString qid_time) := by
    cases ev with
    | exc msg buffered =>
        simp [query_bot, hcfg, QueryEvent.buffered]
    | waitEnd buffered =>
        simp only [query_bot, Bool.not_true, Bool.false_eq_true, if_false, hcfg,
          QueryEvent.buffered]
        split <;> rfl
  rw [hsnd]
  unfold removePending
  rw [if_pos (by simp)]
  constructor
  · simp
  · intro k hk
    simp [hk]

/-- Witness for C5: a timeout exit for module `truename` on an empty
pending map. -/
theorem query_bot_cleans_pending_witness :
    ((query_bot (fun _ _ _ => []) true (fun _ => none) "truename" "phone"
        "9876543210" 0 (.waitEnd [])).2
      ("truename" ++ "_" ++ "9876543210" ++ "_" ++ toString 0) = none) ∧
    ((query_bot (fun _ _ _ => []) true (fun _ => none) "truename" "phone"
        "9876543210" 0 (.waitEnd [])).2 "other_key" = (fun _ => none) "other_key") :=
  have h := query_bot_cleans_pending (fun _ _ _ => []) (fun _ => none)
    "truename" "phone" "9876543210" 0 (.waitEnd []) (by decide)
  ⟨h.1, h.2 "other_key" (by decide)⟩

/-- `costOfName` inverts `TrackerModule.value` onto the cost table. -/
theorem costOfName_value (m : TrackerModule) :
    costOfName m.value = MODULE_CREDITS m := by
  cases m <;> rfl

/-- Invariant of the `execute_search` module loop: starting from any
loop state whose ledger knows the user, the final balance exists, the
charged total grows by exactly the balance decrease, the new rows are
appended, the cost of the appended success rows equals the balance
decrease, and the success counter counts the appended success rows. -/
theorem exec_foldl_spec (uid sid : Nat) (mods : List (TrackerModule × BotOutcome))
    (acc : SearchExec) (bal : Int)
    (hb : findUser acc.ledger.users uid = some bal) :
    ∃ balF newRows,
      findUser (mods.foldl (execStep uid sid) acc).ledger.users uid = some balF ∧
      (mods.foldl (execStep uid sid) acc).rows = acc.rows ++ newRows ∧
      (mods.foldl (execStep uid sid) acc).total_credits_used
        = acc.total_credits_used + (bal - balF) ∧
      okCostSum newRows = bal - balF ∧
      (mods.foldl (execStep uid sid) acc).successful_modules
        = acc.successful_modules + newRows.countP rowOk := by
  induction mods generalizing acc bal with
  | nil =>
      exact ⟨bal, [], hb, by simp, by simp, by simp [okCostSum], by simp⟩
  | cons mb rest ih =>
      obtain ⟨m, out⟩ := mb
      rw [List.foldl_cons]
      cases out with
      | failed err bot =>
          have hstep : execStep uid sid acc (m, .failed err bot)
              = { acc with rows := acc.rows ++ [mkFailureRow sid m err bot] } := rfl
          rw [hstep]
          obtain ⟨balF, newRows, h1, h2, h3, h4, h5⟩ :=
            ih { acc with rows := acc.rows ++ [mkFailureRow sid m err bot] } bal hb
          refine ⟨balF, mkFailureRow sid m err bot :: newRows, h1, ?_, h3, ?_, ?_⟩
          · rw [h2]; simp
          · simpa [okCostSum, rowOk, mkFailureRow] using h4
          · rw [h5]; simp [List.countP_cons, rowOk, mkFailureRow]
      | ok pd bot conf =>
          cases hd : (deduct_credits acc.ledger uid (MODULE_CREDITS m) sid
              ("Tracker search - " ++ m.value)).1 with
          | false =>
              have hst : (deduct_credits acc.ledger uid (MODULE_CREDITS m) sid
                  ("Tracker search - " ++ m.value)).2 = acc.ledger :=
                deduct_credits_fail_state _ _ _ _ _ hd
              have hstep : execStep uid sid acc (m, .ok pd bot conf) = acc := by
                unfold execStep
                dsimp only
                rw [hd, hst]
                simp
              rw [hstep]
              exact ih acc bal hb
          | true =>
              obtain ⟨hle, hfind, _⟩ :=
                deduct_credits_success_state acc.ledger uid (MODULE_CREDITS m) sid
                  ("Tracker search - " ++ m.value) bal hb hd
              have hstep : execStep uid sid acc (m, .ok pd bot conf)
                  = { ledger := (deduct_credits acc.ledger uid (MODULE_CREDITS m) sid
                        ("Tracker search - " ++ m.value)).2
                      rows := acc.rows ++ [mkSuccessRow sid m pd bot conf]
                      total_credits_used := acc.total_credits_used + MODULE_CREDITS m
                      successful_modules := acc.successful_modules + 1 } := by
                unfold execStep
                dsimp only
                rw [hd]
                simp
              rw [hstep]
              obtain ⟨balF, newRows, h1, h2, h3, h4, h5⟩ :=
                ih { ledger := (deduct_credits acc.ledger uid (MODULE_CREDITS m) sid
                        ("Tracker search - " ++ m.value)).2
                     rows := acc.rows ++ [mkSuccessRow sid m pd bot conf]
                     total_credits_used := acc.total_credits_used + MODULE_CREDITS m
                     successful_modules := acc.successful_modules + 1 }
                  (bal - MODULE_CREDITS m) hfind
              refine ⟨balF, mkSuccessRow sid m pd bot conf :: newRows, h1, ?_, ?_, ?_, ?_⟩
              · rw [h2]; simp
              · rw [h3]; dsimp only; omega
              · have h4' : okCostSum (mkSuccessRow sid m pd bot conf :: newRows)
                    = MODULE_CREDITS m + okCostSum newRows := by
                  simp [okCostSum, rowOk, mkSuccessRow, costOfName_value m]
                rw [h4']; omega
              · rw [h5]; dsimp only; simp [List.countP_cons, rowOk, mkSuccessRow]; omega

/-- Claim C2: the stored `credits_used` equals the summed cost of
exactly the modules whose debit succeeded (the success rows) — also
visible as the exact decrease of the user's balance — and the final
status is `'completed'` iff at least one module succeeded, `'failed'`
otherwise; in particular the pay-per-success scenario charges 5 with
status `'completed'` and the all-fail scenario charges 0 with status
`'failed'`. -/
theorem execute_search_billing (uid sid : Nat) (ledger0 : LedgerState)
    (mods : List (TrackerModule × BotOutcome)) (bal0 : Int)
    (hb : findUser ledger0.users uid = some bal0) :
    ((∃ balF,
        findUser (execute_search uid sid ledger0 mods).final.ledger.users uid
          = some balF ∧
        (execute_search uid sid ledger0 mods).credits_used = bal0 - balF) ∧
     (execute_search uid sid ledger0 mods).credits_used
        = okCostSum (execute_search uid sid ledger0 mods).final.rows ∧
     ((execute_search uid sid ledger0 mods).status = "completed" ↔
        0 < (execute_search uid sid ledger0 mods).final.rows.countP rowOk) ∧
     ((execute_search uid sid ledger0 mods).status = "failed" ↔
        (execute_search uid sid ledger0 mods).final.rows.countP rowOk = 0)) ∧
    ((execute_search 1 11 ⟨[(1, 12)], []⟩ partialSuccessScenario).credits_used = 5 ∧
     (execute_search 1 11 ⟨[(1, 12)], []⟩ partialSuccessScenario).status
        = "completed" ∧
     (execute_search 1 11 ⟨[(1, 12)], []⟩ allFailScenario).credits_used = 0 ∧
     (execute_search 1 11 ⟨[(1, 12)], []⟩ allFailScenario).status = "failed") := by
  obtain ⟨balF, newRows, h1, h2, h3, h4, h5⟩ :=
    exec_foldl_spec uid sid mods
      { ledger := ledger0, rows := [], total_credits_used := 0,
        successful_modules := 0 } bal0 hb
  have hfin : (execute_search uid sid ledger0 mods).final
      = mods.foldl (execStep uid sid)
          { ledger := ledger0, rows := [], total_credits_used := 0,
            successful_modules := 0 } := rfl
  have hrows : (execute_search uid sid ledger0 mods).final.rows = newRows := by
    rw [hfin, h2]; simp
  have hcu : (execute_search uid sid ledger0 mods).credits_used = bal0 - balF := by
    have hc : (execute_search uid sid ledger0 mods).credits_used
        = (mods.foldl (execStep uid sid)
            { ledger := ledger0, rows := [], total_credits_used := 0,
              successful_modules := 0 }).total_credits_used := rfl
    rw [hc, h3]; ring
  have hstat : (execute_search uid sid ledger0 mods).status
      = (if 0 < newRows.countP rowOk then "completed" else "failed") := by
    have hs : (execute_search uid sid ledger0 mods).status
        = (if (mods.foldl (execStep uid sid)
              { ledger := ledger0, rows := [], total_credits_used := 0,
                successful_modules := 0 }).successful_modules > 0
           then "completed" else "failed") := rfl
    rw [hs, h5]; simp
  refine ⟨⟨⟨balF, by rw [hfin]; exact h1, hcu⟩,
    by rw [hcu, hrows]; exact h4.symm, ?_, ?_⟩, by decide, by decide, by decide,
    by decide⟩
  · rw [hstat, hrows]
    by_cases hp : 0 < newRows.countP rowOk
    · rw [if_pos hp]
      exact ⟨fun _ => hp, fun _ => rfl⟩
    · rw [if_neg hp]
      constructor
      · intro h; exact absurd h (by decide)
      · intro h; exact absurd h hp
  · rw [hstat, hrows]
    by_cases hp : 0 < newRows.countP rowOk
    · rw [if_pos hp]
      constructor
      · intro h; exact absurd h (by decide)
      · intro h; omega
    · rw [if_neg hp]
      constructor
      · intro _; omega
      · intro _; rfl

/-- Witness for C2 at the pay-per-success scenario and starting
balance 12. -/
theorem execute_search_billing_witness :
    (execute_search 1 11 ⟨[(1, 12)], []⟩ partialSuccessScenario).credits_used
      = okCostSum (execute_search 1 11 ⟨[(1, 12)], []⟩
          partialSuccessScenario).final.rows ∧
    ((execute_search 1 11 ⟨[(1, 12)], []⟩ partialSuccessScenario).status
        = "completed" ↔
      0 < (execute_search 1 11 ⟨[(1, 12)], []⟩
          partialSuccessScenario).final.rows.countP rowOk) :=
  have h := execute_search_billing 1 11 ⟨[(1, 12)], []⟩ partialSuccessScenario 12 rfl
  ⟨h.1.2.1, h.1.2.2.1⟩

/-- Counterexample to claim C1: with balance 3 the truename bot query
succeeds but the 5-credit debit fails; the search reaches the terminal
status `'failed'` with ZERO stored `ModuleResult` rows for its one
requested module — no row marked failed with a ledger error is
persisted (the success branch of `execute_search` has no `else` for a
failed debit), so the one-row-per-requested-module invariant does not
hold.  Nothing is charged, as the claim says. -/
theorem execute_search_debit_failure_loses_row :
    (execute_search 1 42 ⟨[(1, 3)], []⟩ debitFailScenario).final.rows = [] ∧
    (execute_search 1 42 ⟨[(1, 3)], []⟩ debitFailScenario).status = "failed" ∧
    (execute_search 1 42 ⟨[(1, 3)], []⟩ debitFailScenario).credits_used = 0 ∧
    (execute_search 1 42 ⟨[(1, 3)], []⟩ debitFailScenario).final.ledger
      = ⟨[(1, 3)], []⟩ :=
  ⟨rfl, rfl, rfl, rfl⟩

/-- Claim C1 as amended: when a module's bot query succeeds but the
debit fails, the orchestrator charges nothing for it and persists NO
`ModuleResult` for that module — the loop iteration leaves the state
unchanged — while every other module outcome (bot failure, or bot
success with successful debit) persists exactly one `ModuleResult`; so
at terminal status exactly one row exists per requested module EXCEPT
the bot-success/debit-fail ones, which have none. -/
theorem execStep_row_accounting (uid sid : Nat) (acc : SearchExec)
    (m : TrackerModule) (out : BotOutcome) :
    (∀ pd bot conf, out = .ok pd bot conf →
      (deduct_credits acc.ledger uid (MODULE_CREDITS m) sid
          ("Tracker search - " ++ m.value)).1 = false →
      execStep uid sid acc (m, out) = acc) ∧
    (∀ pd bot conf, out = .ok pd bot conf →
      (deduct_credits acc.ledger uid (MODULE_CREDITS m) sid
          ("Tracker search - " ++ m.value)).1 = true →
      (execStep uid sid acc (m, out)).rows
        = acc.rows ++ [mkSuccessRow sid m pd bot conf]) ∧
    (∀ err bot, out = .failed err bot →
      (execStep uid sid acc (m, out)).rows
        = acc.rows ++ [mkFailureRow sid m err bot]) := by
  refine ⟨?_, ?_, ?_⟩
  · intro pd bot conf hout hd
    subst hout
    have hst : (deduct_credits acc.ledger uid (MODULE_CREDITS m) sid
        ("Tracker search - " ++ m.value)).2 = acc.ledger :=
      deduct_credits_fail_state _ _ _ _ _ hd
    unfold execStep
    dsimp only
    rw [hd, hst]
    simp
  · intro pd bot conf hout hd
    subst hout
    unfold execStep
    dsimp only
    rw [hd]
    simp
  · intro err bot hout
    subst hout
    rfl

/-- Witness for the amended C1: the debit-failure iteration of the
counterexample scenario is a no-op, and a timeout iteration stores
exactly one failure row. -/
theorem execStep_row_accounting_witness :
    execStep 1 42
        { ledger := ⟨[(1, 3)], []⟩, rows := [], total_credits_used := 0,
          successful_modules := 0 }
        (.TRUE_NAME, .ok [("name", PyValue.str "A")] "@TrucalllerBot" "high")
      = { ledger := ⟨[(1, 3)], []⟩, rows := [], total_credits_used := 0,
          successful_modules := 0 } ∧
    (execStep 1 42
        { ledger := ⟨[(1, 3)], []⟩, rows := [], total_credits_used := 0,
          successful_modules := 0 }
        (.SOCIAL_MEDIA, .failed (some "No response from bot within timeout")
           (some "@EyeofGodBot"))).rows
      = [] ++ [mkFailureRow 42 .SOCIAL_MEDIA
           (some "No response from bot within timeout") (some "@EyeofGodBot")] :=
  ⟨(execStep_row_accounting 1 42
      { ledger := ⟨[(1, 3)], []⟩, rows := [], total_credits_used := 0,
        successful_modules := 0 }
      .TRUE_NAME (.ok [("name", PyValue.str "A")] "@TrucalllerBot" "high")).1
      [("name", PyValue.str "A")] "@TrucalllerBot" "high" rfl (by decide),
   (execStep_row_accounting 1 42
      { ledger := ⟨[(1, 3)], []⟩, rows := [], total_credits_used := 0,
        successful_modules := 0 }
      .SOCIAL_MEDIA (.failed (some "No response from bot within timeout")
        (some "@EyeofGodBot"))).2.2
      (some "No response from bot within timeout") (some "@EyeofGodBot") rfl⟩

end Osint
